import Mathlib

/-!
Shallow embedding of `src/list_instances.py`: a CLI utility that assumes a
cross-account role via STS, enumerates EC2 instances through a paginated
describe call, sorts them by creation timestamp and renders one line per
record.

Python dictionaries with possibly-absent fields are modelled as structures of
`Option` fields (`dict.get` returns `none` for a missing key).  Python
truthiness on strings / optional strings (`if external_id:`, `if not tags:`,
`name if name else ...`) is modelled explicitly.  `sys.exit` and the
uncaught-`TypeError` path of `list.sort` are modelled by an `Except` /
outcome type.  Timestamps (`datetime` values) are modelled as `Nat`, which
preserves everything the program uses about them: a total order and a string
rendering.
-/

namespace ListInstances

/-- Truthiness of a Python optional string: `None` and `""` are falsy. -/
def pyTruthy : Option String → Bool
  | none => false
  | some s => !(s == "")

/-- Python `str(x)` for an optional string: `None` prints as `"None"`. -/
def pyStr : Option String → String
  | none => "None"
  | some s => s

/-- Python `str(x)` for an optional timestamp: `None` prints as `"None"`,
a timestamp prints as its decimal rendering (standing in for `datetime.__str__`). -/
def pyStrTime : Option Nat → String
  | none => "None"
  | some t => toString t

/-- One entry of a tag collection: a Python dict whose `"Key"` and `"Value"`
fields may each be absent (`t.get("Key")`, `t.get("Value")`). -/
structure Tag where
  key : Option String
  val : Option String
  deriving Repr, DecidableEq

/-- The `"State"` sub-dict of an instance dict; its `"Name"` field may be absent. -/
structure StateObj where
  name : Option String
  deriving Repr, DecidableEq

/-- An instance record as the code consumes it: a dict whose fields are read
with `.get`, hence all optional. -/
structure Inst where
  instanceId : Option String
  launchTime : Option Nat
  state : Option StateObj
  tags : Option (List Tag)
  deriving Repr, DecidableEq

/-- A `"Reservations"` grouping of a describe-instances page; its
`"Instances"` list may be absent (`reservation.get("Instances", [])`). -/
structure Reservation where
  instances : Option (List Inst)
  deriving Repr, DecidableEq

/-- One page of the paginated describe-instances response; its
`"Reservations"` list may be absent (`page.get("Reservations", [])`). -/
structure Page where
  reservations : Option (List Reservation)
  deriving Repr, DecidableEq

/-- The loop body of `get_name_tag`: scan the tag list in order and return
`t.get("Value")` of the first entry with `t.get("Key") == "Name"`. -/
def findNameTag : List Tag → Option String
  | [] => none
  | t :: rest => if t.key == some "Name" then t.val else findNameTag rest

/-- `get_name_tag(tags)`: `if not tags: return None` (absent or empty
collection), otherwise the in-order scan `findNameTag`. -/
def get_name_tag : Option (List Tag) → Option String
  | none => none
  | some l => if l.isEmpty then none else findNameTag l

/-- The lifecycle-state string of a record:
`(inst.get("State") or {}).get("Name")`. -/
def stateName (i : Inst) : Option String :=
  i.state.bind StateObj.name

/-- The display-name expression of the render loop:
`name if name else "(no Name tag)"` where `name = get_name_tag(inst.get("Tags"))`. -/
def nameDisplay (i : Inst) : String :=
  let n := get_name_tag i.tags
  if pyTruthy n then pyStr n else "(no Name tag)"

/-- One rendered output line:
`f"{launch}  {iid}  {state}  {name_display}"`. -/
def renderLine (i : Inst) : String :=
  pyStrTime i.launchTime ++ "  " ++ pyStr i.instanceId ++ "  " ++
    pyStr (stateName i) ++ "  " ++ nameDisplay i

/-- The sort key of a record on the comparable path: its launch time
(all records are known to carry one when this is used). -/
def timeKey (i : Inst) : Nat :=
  i.launchTime.getD 0

/-- Stable insertion of a record into an already-processed list: the new
record (earlier in the original order) is placed before the first record of
equal or larger key, so equal keys keep their original relative order. -/
def insertByTime (x : Inst) : List Inst → List Inst
  | [] => [x]
  | y :: ys => if timeKey x ≤ timeKey y then x :: y :: ys else y :: insertByTime x ys

/-- The stable ascending sort by launch time, as computed by
`instances.sort(key=lambda i: i.get("LaunchTime"))` on fully comparable keys
(Python's sort is stable, so its result is this one). -/
def stableSortByTime : List Inst → List Inst
  | [] => []
  | x :: xs => insertByTime x (stableSortByTime xs)

/-- `instances.sort(key=lambda i: i.get("LaunchTime"))` with Python
exception behaviour: with at most one element no comparison happens; with two
or more elements every element's key takes part in a comparison, and any
comparison touching `None` raises `TypeError`, aborting the sort. -/
def pySortByLaunchTime (l : List Inst) : Except String (List Inst) :=
  if l.length ≤ 1 then .ok l
  else if l.all (fun i => i.launchTime.isSome) then .ok (stableSortByTime l)
  else .error "TypeError: comparison between NoneType and datetime is not supported"

/-- The placeholder line printed for an empty collection. -/
def noInstancesLine : String := "(no instances found)"

/-- The Presenter part of `list_instances_sorted` (lines 62-75): sort, then
either the placeholder line or one rendered line per record, in sorted
order.  An uncaught `TypeError` from the sort produces no output lines. -/
def renderLines (l : List Inst) : Except String (List String) :=
  match pySortByLaunchTime l with
  | .error e => .error e
  | .ok sorted =>
      .ok (if sorted.isEmpty then [noInstancesLine] else sorted.map renderLine)

/-- All instance entries of one page, in provider order:
`for reservation in page.get("Reservations", []): for inst in reservation.get("Instances", [])`. -/
def pageInsts (p : Page) : List Inst :=
  (p.reservations.getD []).flatMap (fun r => r.instances.getD [])

/-- The pagination drain loop (lines 54-57): pages are fetched lazily one by
one; a failing fetch aborts the whole enumeration (the partial list is
discarded by `sys.exit`), otherwise every entry of every reservation of every
page is appended in order until the provider signals no further pages. -/
def drainPages : List (Except String Page) → Except String (List Inst)
  | [] => .ok []
  | .error e :: _ => .error e
  | .ok p :: rest =>
      match drainPages rest with
      | .error e => .error e
      | .ok l => .ok (pageInsts p ++ l)

/-- The parameter dict built by `assume_role`:
`{"RoleArn": ..., "RoleSessionName": "ec2-list-session"}` plus
`params["ExternalId"] = external_id` guarded by `if external_id:`
(Python truthiness: absent or empty external ids are not forwarded). -/
structure AssumeParams where
  roleArn : String
  roleSessionName : String
  externalId : Option String
  deriving Repr, DecidableEq

/-- Request construction of `assume_role` (lines 20-25). -/
def buildAssumeParams (role_arn : String) (external_id : Option String) : AssumeParams :=
  { roleArn := role_arn
    roleSessionName := "ec2-list-session"
    externalId := if pyTruthy external_id then external_id else none }

/-- The `Credentials` field of a successful STS response. -/
structure StsCreds where
  accessKeyId : String
  secretAccessKey : String
  sessionToken : String
  deriving Repr, DecidableEq

/-- The credential dict returned by `assume_role` on success (lines 29-33). -/
structure Creds where
  aws_access_key_id : String
  aws_secret_access_key : String
  aws_session_token : String
  deriving Repr, DecidableEq

/-- Extraction of the three-field credential set from the STS response. -/
def credsOfResp (r : StsCreds) : Creds :=
  { aws_access_key_id := r.accessKeyId
    aws_secret_access_key := r.secretAccessKey
    aws_session_token := r.sessionToken }

/-- Observable outcome of one run: process exit code, the lines written to
standard output and to the error channel, and whether the describe-instances
enumeration was ever attempted. -/
structure ProgOutcome where
  exitCode : Nat
  stdoutLines : List String
  stderrLines : List String
  describeCalled : Bool
  deriving Repr, DecidableEq

/-- The external world of one run: what the identity service answers to the
assume-role request, and the stream of page-fetch results of the
describe-instances paginator (each fetch either a page or an error). -/
structure World where
  stsResult : Except String StsCreds
  pageStream : List (Except String Page)

/-- `assume_role` (lines 18-36): on an STS error, print the labelled
diagnostic to stderr and exit with code 2 before any enumeration; on success
return the credential set. -/
def assume_role (w : World) : Except ProgOutcome Creds :=
  match w.stsResult with
  | .error e =>
      .error { exitCode := 2
               stdoutLines := []
               stderrLines := ["[ERROR] Failed to assume role: " ++ e]
               describeCalled := false }
  | .ok r => .ok (credsOfResp r)

/-- `list_instances_sorted` (lines 48-75): drain the paginator (exit 3 with a
labelled stderr line on any fetch error), sort (an uncaught `TypeError`
terminates with the interpreter's exit code 1 and a traceback on stderr),
then print the placeholder or one line per record. -/
def list_instances_sorted (w : World) (_creds : Creds) : ProgOutcome :=
  match drainPages w.pageStream with
  | .error e =>
      { exitCode := 3
        stdoutLines := []
        stderrLines := ["[ERROR] Failed to describe instances: " ++ e]
        describeCalled := true }
  | .ok insts =>
      match pySortByLaunchTime insts with
      | .error e =>
          { exitCode := 1
            stdoutLines := []
            stderrLines := ["Traceback (most recent call last): " ++ e]
            describeCalled := true }
      | .ok sorted =>
          { exitCode := 0
            stdoutLines :=
              if sorted.isEmpty then [noInstancesLine] else sorted.map renderLine
            stderrLines := []
            describeCalled := true }

/-- `main` (lines 78-86) after argument parsing: assume the role, then
enumerate and render; a successful run exits with code 0. -/
def runMain (w : World) : ProgOutcome :=
  match assume_role w with
  | .error out => out
  | .ok creds => list_instances_sorted w creds

/-- Substring search on character lists: does `sub` occur contiguously in the
second list? -/
def startsWithChars : List Char → List Char → Bool
  | [], _ => true
  | _ :: _, [] => false
  | a :: as, b :: bs => a == b && startsWithChars as bs

/-- Substring occurrence: `sub` occurs contiguously somewhere in `l`. -/
def hasSubChars (sub : List Char) : List Char → Bool
  | [] => startsWithChars sub []
  | c :: t => startsWithChars sub (c :: t) || hasSubChars sub t

/-- String containment: `sub` is a contiguous substring of `s`. -/
def strContains (s sub : String) : Bool :=
  hasSubChars sub.data s.data

lemma mem_insertByTime {z x : Inst} {l : List Inst} :
    z ∈ insertByTime x l ↔ z = x ∨ z ∈ l := by
  induction l with
  | nil => simp [insertByTime]
  | cons y ys ih =>
      by_cases hxy : timeKey x ≤ timeKey y
      · simp [insertByTime, hxy]
      · simp [insertByTime, hxy, ih]
        tauto

lemma pairwise_insertByTime {x : Inst} {l : List Inst}
    (h : l.Pairwise (fun a b => timeKey a ≤ timeKey b)) :
    (insertByTime x l).Pairwise (fun a b => timeKey a ≤ timeKey b) := by
  induction l with
  | nil => simp [insertByTime]
  | cons y ys ih =>
      rcases List.pairwise_cons.mp h with ⟨hy, hys⟩
      by_cases hxy : timeKey x ≤ timeKey y
      · simp only [insertByTime, if_pos hxy]
        refine List.pairwise_cons.mpr ⟨?_, h⟩
        intro z hz
        rcases List.mem_cons.mp hz with rfl | hz
        · exact hxy
        · exact le_trans hxy (hy z hz)
      · simp only [insertByTime, if_neg hxy]
        refine List.pairwise_cons.mpr ⟨?_, ih hys⟩
        intro z hz
        rcases mem_insertByTime.mp hz with rfl | hz
        · exact le_of_not_le hxy
        · exact hy z hz

lemma pairwise_stableSortByTime (l : List Inst) :
    (stableSortByTime l).Pairwise (fun a b => timeKey a ≤ timeKey b) := by
  induction l with
  | nil => simp [stableSortByTime]
  | cons x xs ih => exact pairwise_insertByTime ih

lemma filterKey_insertByTime (t : Nat) (x : Inst) (l : List Inst) :
    (insertByTime x l).filter (fun i => timeKey i == t) =
      if timeKey x == t then x :: l.filter (fun i => timeKey i == t)
      else l.filter (fun i => timeKey i == t) := by
  induction l with
  | nil =>
      by_cases hx : timeKey x = t
      · simp [insertByTime, List.filter, hx]
      · have hx2 : (timeKey x == t) = false := beq_eq_false_iff_ne.mpr hx
        simp [insertByTime, List.filter, hx, hx2]
  | cons y ys ih =>
      by_cases hxy : timeKey x ≤ timeKey y
      · by_cases hx : timeKey x == t
        · simp [insertByTime, hxy, List.filter, hx]
        · simp [insertByTime, hxy, List.filter, hx]
      · have hyx : timeKey y < timeKey x := lt_of_not_le hxy
        by_cases hx : timeKey x == t
        · have ht : timeKey y ≠ t := by
            intro hyt
            have hxt : timeKey x = t := by simpa using hx
            omega
          have hy : (timeKey y == t) = false := by simpa using ht
          simp only [insertByTime, if_neg hxy, List.filter, hy, ih, if_pos hx]
        · by_cases hy : timeKey y == t
          · simp only [insertByTime, if_neg hxy, List.filter, hy, ih, if_neg hx]
          · simp only [insertByTime, if_neg hxy, List.filter,
              Bool.not_eq_true] at hy ⊢
            simp only [hy, ih, if_neg hx]

lemma filterKey_stableSortByTime (t : Nat) (l : List Inst) :
    (stableSortByTime l).filter (fun i => timeKey i == t) =
      l.filter (fun i => timeKey i == t) := by
  induction l with
  | nil => rfl
  | cons x xs ih =>
      by_cases hx : timeKey x == t
      · simp [stableSortByTime, filterKey_insertByTime, hx, List.filter, ih]
      · simp [stableSortByTime, filterKey_insertByTime, hx, List.filter, ih]

lemma length_insertByTime (x : Inst) (l : List Inst) :
    (insertByTime x l).length = l.length + 1 := by
  induction l with
  | nil => rfl
  | cons y ys ih =>
      by_cases hxy : timeKey x ≤ timeKey y
      · simp [insertByTime, hxy]
      · simp [insertByTime, hxy, ih]

lemma length_stableSortByTime (l : List Inst) :
    (stableSortByTime l).length = l.length := by
  induction l with
  | nil => rfl
  | cons x xs ih => simp [stableSortByTime, length_insertByTime, ih]

lemma stableSortByTime_short (l : List Inst) (h : l.length ≤ 1) :
    stableSortByTime l = l := by
  match l, h with
  | [], _ => rfl
  | [x], _ => rfl

lemma pySortByLaunchTime_ok {l : List Inst} (h : ∀ i ∈ l, i.launchTime.isSome) :
    pySortByLaunchTime l = .ok (stableSortByTime l) := by
  unfold pySortByLaunchTime
  by_cases hlen : l.length ≤ 1
  · rw [if_pos hlen, stableSortByTime_short l hlen]
  · rw [if_neg hlen, if_pos]
    exact List.all_eq_true.mpr (fun i hi => h i hi)

lemma stableSortByTime_isEmpty (l : List Inst) :
    (stableSortByTime l).isEmpty = l.isEmpty := by
  cases l with
  | nil => rfl
  | cons x xs =>
      have h1 : (stableSortByTime (x :: xs)).length = xs.length + 1 :=
        length_stableSortByTime _
      cases hs : stableSortByTime (x :: xs) with
      | nil => simp [hs] at h1
      | cons y ys => simp [List.isEmpty]

lemma drainPages_all_ok (pages : List Page) :
    drainPages (pages.map Except.ok) = .ok (pages.flatMap pageInsts) := by
  induction pages with
  | nil => rfl
  | cons p ps ih => simp [drainPages, ih, List.flatMap_cons]

lemma drainPages_error (good : List Page) (e : String) (rest : List (Except String Page)) :
    drainPages (good.map Except.ok ++ Except.error e :: rest) = .error e := by
  induction good with
  | nil => rfl
  | cons p ps ih => simp [drainPages, ih]

lemma startsWithChars_append (sub r : List Char) :
    startsWithChars sub (sub ++ r) = true := by
  induction sub with
  | nil => rfl
  | cons c cs ih => simp [startsWithChars, ih]

lemma hasSubChars_mid (a sub r : List Char) :
    hasSubChars sub (a ++ (sub ++ r)) = true := by
  induction a with
  | nil =>
      cases sub with
      | nil =>
          cases r with
          | nil => rfl
          | cons c t => simp [hasSubChars, startsWithChars]
      | cons c t =>
          have h1 : startsWithChars (c :: t) ((c :: t) ++ r) = true :=
            startsWithChars_append _ _
          simp only [List.cons_append] at h1
          simp [hasSubChars, h1]
  | cons c t ih => simp [hasSubChars, ih]

lemma hasSubChars_of_eq {l : List Char} (a sub r : List Char)
    (h : l = a ++ (sub ++ r)) : hasSubChars sub l = true := by
  rw [h]; exact hasSubChars_mid a sub r

lemma strContains_mid (x sub y : String) :
    strContains (x ++ sub ++ y) sub = true := by
  have h : (x ++ sub ++ y).data = x.data ++ (sub.data ++ y.data) := by
    simp [String.data_append]
  exact hasSubChars_of_eq x.data sub.data y.data h

lemma strContains_of_suffix (x sub : String) :
    strContains (x ++ sub) sub = true := by
  have h : (x ++ sub).data = x.data ++ (sub.data ++ []) := by
    simp [String.data_append]
  exact hasSubChars_of_eq x.data sub.data [] h

lemma renderLine_contains_nameDisplay (i : Inst) :
    strContains (renderLine i) (nameDisplay i) = true :=
  strContains_of_suffix
    (pyStrTime i.launchTime ++ "  " ++ pyStr i.instanceId ++ "  " ++
      pyStr (stateName i) ++ "  ") (nameDisplay i)

lemma renderLine_contains_fields (i : Inst) :
    strContains (renderLine i) (pyStrTime i.launchTime) = true ∧
    strContains (renderLine i) (pyStr i.instanceId) = true ∧
    strContains (renderLine i) (pyStr (stateName i)) = true ∧
    strContains (renderLine i) (nameDisplay i) = true := by
  refine ⟨?_, ?_, ?_, renderLine_contains_nameDisplay i⟩
  · have h : (renderLine i).data =
        [] ++ ((pyStrTime i.launchTime).data ++
          ("  " ++ pyStr i.instanceId ++ "  " ++ pyStr (stateName i) ++ "  " ++
            nameDisplay i).data) := by
      simp [renderLine, String.data_append]
    exact hasSubChars_of_eq _ _ _ h
  · have h : (renderLine i).data =
        (pyStrTime i.launchTime ++ "  ").data ++
          ((pyStr i.instanceId).data ++
            ("  " ++ pyStr (stateName i) ++ "  " ++ nameDisplay i).data) := by
      simp [renderLine, String.data_append]
    exact hasSubChars_of_eq _ _ _ h
  · have h : (renderLine i).data =
        (pyStrTime i.launchTime ++ "  " ++ pyStr i.instanceId ++ "  ").data ++
          ((pyStr (stateName i)).data ++ ("  " ++ nameDisplay i).data) := by
      simp [renderLine, String.data_append]
    exact hasSubChars_of_eq _ _ _ h

lemma findNameTag_eq_find (l : List Tag) :
    findNameTag l = (l.find? (fun t => t.key == some "Name")).bind Tag.val := by
  induction l with
  | nil => rfl
  | cons t rest ih =>
      by_cases h : t.key == some "Name"
      · simp [findNameTag, List.find?, h]
      · simp only [Bool.not_eq_true] at h
        simp [findNameTag, List.find?, h, ih]

lemma get_name_tag_eq_find (tags : Option (List Tag)) :
    get_name_tag tags =
      ((tags.getD []).find? (fun t => t.key == some "Name")).bind Tag.val := by
  cases tags with
  | none => rfl
  | some l =>
      cases l with
      | nil => rfl
      | cons t rest =>
          simp only [get_name_tag, Option.getD, List.isEmpty]
          exact findNameTag_eq_find (t :: rest)

/-- C1: the spec requires that sorting by creation timestamp not crash when a
record lacks a timestamp (a missing timestamp should sort as the minimum
value).  The code violates this: `instances.sort(key=lambda i:
i.get("LaunchTime"))` compares `None` against a timestamp and raises an
uncaught `TypeError`.  This theorem evaluates the embedded sort at a failing
input — two records, the first lacking a launch time — and shows the sort
aborts instead of producing the ordered list. -/
theorem sort_crashes_on_missing_timestamp :
    pySortByLaunchTime
        [⟨some "i-001", none, none, none⟩, ⟨some "i-002", some 5, none, none⟩] =
      .error "TypeError: comparison between NoneType and datetime is not supported" :=
  rfl

/-- C2: when every record of the collection carries a creation timestamp, the
sort succeeds, the Presenter renders exactly the sorted records, adjacent
records of the sorted output have ascending timestamps, and the sort is
stable: for any fixed timestamp, the records carrying it appear in their
original relative order. -/
theorem render_sorted_monotone_stable (l : List Inst)
    (h : ∀ i ∈ l, i.launchTime.isSome) :
    pySortByLaunchTime l = .ok (stableSortByTime l) ∧
    renderLines l = .ok (if (stableSortByTime l).isEmpty then [noInstancesLine]
      else (stableSortByTime l).map renderLine) ∧
    List.Chain' (fun a b => timeKey a ≤ timeKey b) (stableSortByTime l) ∧
    ∀ t : Nat, (stableSortByTime l).filter (fun i => timeKey i == t) =
      l.filter (fun i => timeKey i == t) := by
  have hs := pySortByLaunchTime_ok h
  refine ⟨hs, ?_, ?_, fun t => filterKey_stableSortByTime t l⟩
  · unfold renderLines
    rw [hs]
  · exact List.Pairwise.chain' (pairwise_stableSortByTime l)

/-- Witness for C2 at a concrete three-record collection with a duplicated
timestamp, exercising both monotonicity and stability. -/
theorem render_sorted_monotone_stable_witness :
    (∀ i ∈ ([⟨some "a", some 2, none, none⟩, ⟨some "b", some 1, none, none⟩,
        ⟨some "c", some 2, none, none⟩] : List Inst), i.launchTime.isSome) ∧
    (pySortByLaunchTime
        [⟨some "a", some 2, none, none⟩, ⟨some "b", some 1, none, none⟩,
          ⟨some "c", some 2, none, none⟩] =
      .ok (stableSortByTime
        [⟨some "a", some 2, none, none⟩, ⟨some "b", some 1, none, none⟩,
          ⟨some "c", some 2, none, none⟩]) ∧
    renderLines
        [⟨some "a", some 2, none, none⟩, ⟨some "b", some 1, none, none⟩,
          ⟨some "c", some 2, none, none⟩] =
      .ok (if (stableSortByTime
            [⟨some "a", some 2, none, none⟩, ⟨some "b", some 1, none, none⟩,
              ⟨some "c", some 2, none, none⟩]).isEmpty then [noInstancesLine]
        else (stableSortByTime
            [⟨some "a", some 2, none, none⟩, ⟨some "b", some 1, none, none⟩,
              ⟨some "c", some 2, none, none⟩]).map renderLine) ∧
    List.Chain' (fun a b => timeKey a ≤ timeKey b)
      (stableSortByTime
        [⟨some "a", some 2, none, none⟩, ⟨some "b", some 1, none, none⟩,
          ⟨some "c", some 2, none, none⟩]) ∧
    ∀ t : Nat, (stableSortByTime
        [⟨some "a", some 2, none, none⟩, ⟨some "b", some 1, none, none⟩,
          ⟨some "c", some 2, none, none⟩]).filter (fun i => timeKey i == t) =
      ([⟨some "a", some 2, none, none⟩, ⟨some "b", some 1, none, none⟩,
          ⟨some "c", some 2, none, none⟩] : List Inst).filter
        (fun i => timeKey i == t)) :=
  ⟨by decide, render_sorted_monotone_stable _ (by decide)⟩

/-- Counterexample to C3 as stated: a non-empty two-record collection in
which no record has a creation timestamp.  The sort raises an uncaught
`TypeError`, so the Presenter writes no lines at all — the output line count
is not the record count. -/
theorem render_line_count_fails_without_timestamps :
    ¬ ∃ lines, renderLines
        [⟨some "i-003", none, none, none⟩, ⟨some "i-004", none, none, none⟩] =
        .ok lines ∧ lines.length = 2 := by
  rintro ⟨lines, h, -⟩
  rw [show renderLines
      [⟨some "i-003", none, none, none⟩, ⟨some "i-004", none, none, none⟩] =
      .error "TypeError: comparison between NoneType and datetime is not supported"
    from rfl] at h
  exact Except.noConfusion h

/-- C3 as amended: for every non-empty collection whose records all carry a
creation timestamp the Presenter writes exactly one line per record, each
line containing the record's creation timestamp, instance identifier,
lifecycle state and display name; for the empty collection it writes exactly
the one placeholder line `"(no instances found)"`. -/
theorem render_line_count (l : List Inst) (h : ∀ i ∈ l, i.launchTime.isSome) :
    (l ≠ [] → renderLines l = .ok ((stableSortByTime l).map renderLine) ∧
      ((stableSortByTime l).map renderLine).length = l.length ∧
      ∀ i ∈ stableSortByTime l,
        strContains (renderLine i) (pyStrTime i.launchTime) = true ∧
        strContains (renderLine i) (pyStr i.instanceId) = true ∧
        strContains (renderLine i) (pyStr (stateName i)) = true ∧
        strContains (renderLine i) (nameDisplay i) = true) ∧
    renderLines ([] : List Inst) = .ok [noInstancesLine] := by
  refine ⟨?_, rfl⟩
  intro hne
  have hs := pySortByLaunchTime_ok h
  have hemp : (stableSortByTime l).isEmpty = false := by
    rw [stableSortByTime_isEmpty]
    cases l with
    | nil => exact absurd rfl hne
    | cons x xs => rfl
  refine ⟨?_, ?_, fun i _ => renderLine_contains_fields i⟩
  · unfold renderLines
    rw [hs]
    simp [hemp]
  · simp [length_stableSortByTime]

/-- Witness for the amended C3 at a concrete two-record collection and at the
empty collection. -/
theorem render_line_count_witness :
    (∀ i ∈ ([⟨some "i-1", some 3, none, none⟩, ⟨some "i-2", some 1, none, none⟩] :
        List Inst), i.launchTime.isSome) ∧
    ((([⟨some "i-1", some 3, none, none⟩, ⟨some "i-2", some 1, none, none⟩] :
        List Inst) ≠ [] →
      renderLines
          [⟨some "i-1", some 3, none, none⟩, ⟨some "i-2", some 1, none, none⟩] =
        .ok ((stableSortByTime
          [⟨some "i-1", some 3, none, none⟩, ⟨some "i-2", some 1, none, none⟩]).map
            renderLine) ∧
      ((stableSortByTime
          [⟨some "i-1", some 3, none, none⟩, ⟨some "i-2", some 1, none, none⟩]).map
            renderLine).length =
        ([⟨some "i-1", some 3, none, none⟩, ⟨some "i-2", some 1, none, none⟩] :
          List Inst).length ∧
      ∀ i ∈ stableSortByTime
          [⟨some "i-1", some 3, none, none⟩, ⟨some "i-2", some 1, none, none⟩],
        strContains (renderLine i) (pyStrTime i.launchTime) = true ∧
        strContains (renderLine i) (pyStr i.instanceId) = true ∧
        strContains (renderLine i) (pyStr (stateName i)) = true ∧
        strContains (renderLine i) (nameDisplay i) = true) ∧
    renderLines ([] : List Inst) = .ok [noInstancesLine]) :=
  ⟨by decide, render_line_count _ (by decide)⟩

/-- C4: the display name is the `"Value"` of the first tag entry whose
`"Key"` is exactly `"Name"`; when the tag collection is absent, empty, or
holds no `"Name"` key, the rendered line contains the placeholder
`"(no Name tag)"`; when the name resolves to `"web-1"` the rendered line
contains `"web-1"`. -/
theorem display_name_resolution (i : Inst) :
    get_name_tag i.tags =
      ((i.tags.getD []).find? (fun t => t.key == some "Name")).bind Tag.val ∧
    ((i.tags = none ∨ i.tags = some [] ∨
        ∀ t ∈ i.tags.getD [], ¬ t.key = some "Name") →
      strContains (renderLine i) "(no Name tag)" = true) ∧
    (get_name_tag i.tags = some "web-1" →
      strContains (renderLine i) "web-1" = true) := by
  refine ⟨get_name_tag_eq_find i.tags, ?_, ?_⟩
  · intro hcase
    have hnone : get_name_tag i.tags = none := by
      rcases hcase with h0 | h0 | h0
      · rw [h0]; rfl
      · rw [h0]; rfl
      · rw [get_name_tag_eq_find]
        have hf : (i.tags.getD []).find? (fun t => t.key == some "Name") = none :=
          List.find?_eq_none.mpr (fun t ht => by simpa using h0 t ht)
        rw [hf]; rfl
    have hnd : nameDisplay i = "(no Name tag)" := by
      simp [nameDisplay, hnone, pyTruthy]
    have hc := renderLine_contains_nameDisplay i
    rw [hnd] at hc
    exact hc
  · intro hsome
    have hnd : nameDisplay i = "web-1" := by
      simp [nameDisplay, hsome, pyTruthy, pyStr]
    have hc := renderLine_contains_nameDisplay i
    rw [hnd] at hc
    exact hc

/-- Witness for C4: a record whose tag collection holds
`{Key: "Name", Value: "web-1"}` renders a line containing `"web-1"`, and a
record with no tags renders a line containing the placeholder. -/
theorem display_name_resolution_witness :
    strContains
      (renderLine ⟨some "i-100", some 7, none, some [⟨some "Name", some "web-1"⟩]⟩)
      "web-1" = true ∧
    strContains (renderLine ⟨some "i-101", some 8, none, none⟩)
      "(no Name tag)" = true :=
  ⟨(display_name_resolution
      ⟨some "i-100", some 7, none, some [⟨some "Name", some "web-1"⟩]⟩).2.2 rfl,
   (display_name_resolution ⟨some "i-101", some 8, none, none⟩).2.1
      (Or.inl rfl)⟩

/-- C5: when the credential exchange fails, the program writes the single
stderr line labelled `"Failed to assume role"`, terminates with exit code 2,
never attempts the describe-instances enumeration, prints nothing to stdout,
and `assume_role` returns no credential set. -/
theorem assume_role_failure_aborts (w : World) (e : String)
    (h : w.stsResult = .error e) :
    runMain w = ⟨2, [], ["[ERROR] Failed to assume role: " ++ e], false⟩ ∧
    ∀ c, assume_role w ≠ .ok c := by
  constructor
  · simp [runMain, assume_role, h]
  · intro c hc
    simp [assume_role, h] at hc

/-- Witness for C5 at a concrete world whose identity service denies the
exchange. -/
theorem assume_role_failure_aborts_witness :
    runMain ⟨.error "AccessDenied", []⟩ =
      ⟨2, [], ["[ERROR] Failed to assume role: " ++ "AccessDenied"], false⟩ ∧
    ∀ c, assume_role ⟨.error "AccessDenied", []⟩ ≠ .ok c :=
  assume_role_failure_aborts ⟨.error "AccessDenied", []⟩ "AccessDenied" rfl

/-- C6: when any page fetch of the enumeration fails, the program writes the
single stderr line labelled `"Failed to describe instances"`, terminates
with exit code 3, prints no lines to stdout, and no partial collection is
rendered. -/
theorem describe_failure_aborts (w : World) (r : StsCreds) (good : List Page)
    (e : String) (rest : List (Except String Page))
    (h1 : w.stsResult = .ok r)
    (h2 : w.pageStream = good.map Except.ok ++ Except.error e :: rest) :
    runMain w = ⟨3, [], ["[ERROR] Failed to describe instances: " ++ e], true⟩ := by
  simp [runMain, assume_role, h1, list_instances_sorted, h2, drainPages_error]

/-- Witness for C6 at a concrete world: one successful page, then a throttling
error on the second fetch. -/
theorem describe_failure_aborts_witness :
    runMain ⟨.ok ⟨"AK", "SK", "TOK"⟩,
        [Except.ok ⟨some [⟨some [⟨some "i-0", some 1, none, none⟩]⟩]⟩,
          Except.error "Throttling"]⟩ =
      ⟨3, [], ["[ERROR] Failed to describe instances: " ++ "Throttling"], true⟩ :=
  describe_failure_aborts
    ⟨.ok ⟨"AK", "SK", "TOK"⟩,
      [Except.ok ⟨some [⟨some [⟨some "i-0", some 1, none, none⟩]⟩]⟩,
        Except.error "Throttling"]⟩
    ⟨"AK", "SK", "TOK"⟩
    [⟨some [⟨some [⟨some "i-0", some 1, none, none⟩]⟩]⟩] "Throttling" [] rfl rfl

/-- Counterexample to C7 as stated: an empty-string shared secret is a
supplied secret, yet the guard `if external_id:` (Python truthiness) drops
it, so the request carries no verification parameter — "included if and only
if supplied" fails. -/
theorem empty_external_id_not_forwarded :
    (buildAssumeParams "arn:aws:iam::123456789012:role/Test" (some "")).externalId =
      none ∧
    ¬ ((buildAssumeParams "arn:aws:iam::123456789012:role/Test"
          (some "")).externalId ≠ none ↔ (some "" : Option String) ≠ none) := by
  decide

/-- C7 as amended: the request names the given role, always carries the fixed
session name `"ec2-list-session"`, and carries the shared secret as
verification parameter exactly when a non-empty shared secret was
supplied. -/
theorem assume_params_construction (role_arn : String) (external_id : Option String) :
    (buildAssumeParams role_arn external_id).roleArn = role_arn ∧
    (buildAssumeParams role_arn external_id).roleSessionName = "ec2-list-session" ∧
    ∀ s : String, ((buildAssumeParams role_arn external_id).externalId = some s ↔
      (external_id = some s ∧ s ≠ "")) := by
  refine ⟨rfl, rfl, fun s => ?_⟩
  cases external_id with
  | none =>
      constructor
      · intro h
        exact absurd h (by simp [buildAssumeParams, pyTruthy])
      · rintro ⟨h1, -⟩
        exact Option.noConfusion h1
  | some v =>
      by_cases hv : v = ""
      · subst hv
        constructor
        · intro h
          exact absurd h (by simp [buildAssumeParams, pyTruthy])
        · rintro ⟨h1, h2⟩
          injection h1 with h1
          exact absurd h1.symm h2
      · have hb : (!(v == "")) = true := by simp [hv]
        have he : (buildAssumeParams role_arn (some v)).externalId = some v := by
          simp [buildAssumeParams, pyTruthy, hb]
        rw [he]
        constructor
        · intro hvs
          have hvs2 : v = s := by injection hvs
          exact ⟨by rw [hvs2], fun hs => hv (hvs2.trans hs)⟩
        · rintro ⟨h1, -⟩
          exact h1

/-- Witness for C7 as amended: a non-empty secret is forwarded. -/
theorem assume_params_construction_witness :
    (buildAssumeParams "arn:aws:iam::123456789012:role/Test"
        (some "secret")).externalId = some "secret" :=
  ((assume_params_construction "arn:aws:iam::123456789012:role/Test"
      (some "secret")).2.2 "secret").mpr ⟨rfl, by decide⟩

/-- C8: draining the paginator over any sequence of successful pages yields
exactly the concatenation, in provider order, of every instance entry of
every reservation grouping of every page, and consumes the whole page
stream. -/
theorem enumeration_collects_all_pages (pages : List Page) :
    drainPages (pages.map Except.ok) =
      .ok (pages.flatMap (fun p => (p.reservations.getD []).flatMap
        (fun r => r.instances.getD []))) :=
  drainPages_all_ok pages

/-- C9: a record whose `"Name"` tag carries the empty string renders the
placeholder `"(no Name tag)"` — its rendered line is identical to that of
the same record with the tag collection absent. -/
theorem empty_name_tag_indistinguishable (i : Inst)
    (h : get_name_tag i.tags = some "") :
    nameDisplay i = "(no Name tag)" ∧
    renderLine i = renderLine { i with tags := none } := by
  have hnd : nameDisplay i = "(no Name tag)" := by
    simp [nameDisplay, h, pyTruthy]
  have hnd2 : nameDisplay { i with tags := none } = "(no Name tag)" := by
    simp [nameDisplay, get_name_tag, pyTruthy]
  exact ⟨hnd, by simp [renderLine, stateName, hnd, hnd2]⟩

/-- Witness for C9 at a record carrying `{Key: "Name", Value: ""}`. -/
theorem empty_name_tag_indistinguishable_witness :
    nameDisplay ⟨some "i-009", some 1, none, some [⟨some "Name", some ""⟩]⟩ =
      "(no Name tag)" ∧
    renderLine ⟨some "i-009", some 1, none, some [⟨some "Name", some ""⟩]⟩ =
      renderLine { (⟨some "i-009", some 1, none,
        some [⟨some "Name", some ""⟩]⟩ : Inst) with tags := none } :=
  empty_name_tag_indistinguishable
    ⟨some "i-009", some 1, none, some [⟨some "Name", some ""⟩]⟩ rfl

/-- C10: the display-name lookup is total over every shape of tag input —
absent collection, empty collection, entries lacking `"Key"` or `"Value"` —
and always equals the `"Value"` (itself possibly absent) of the first entry
whose `"Key"` is `"Name"`, with no display name otherwise. -/
theorem get_name_tag_total (tags : Option (List Tag)) :
    get_name_tag tags =
      ((tags.getD []).find? (fun t => t.key == some "Name")).bind Tag.val :=
  get_name_tag_eq_find tags

end ListInstances
